import Mathlib

set_option maxRecDepth 40000

/-!
Shallow embedding of the EmailValidator28 validation core, together with
theorems settling the frozen claims about its behaviour.

Conventions used throughout:
* Python dicts with a fixed key set become Lean structures; dict keys are noted
  in the doc comment of each structure.
* Python functions that can raise become `Except String _`; the string is the
  exception rendered as `"ExcClass: message"`.
* Machine floats in the source only ever hold small exact fractions
  (weights such as 0.25, ratios of small integers), so they are modelled by `ℚ`;
  every comparison appearing in the source is exact at these values.
* External I/O (DNS answers, SMTP conversations, HTTP calls, whois) is passed
  in as an explicit environment argument; everything after the I/O boundary is
  translated statement by statement from the source.
-/

set_option autoImplicit false

namespace EmailValidator

/-! ## Python string primitives

The Python code manipulates `str` values; they are embedded as `List Char`
(code-point sequences) with `String` at the outer interfaces.  All strings the
claims touch are ASCII, where Lean `Char.toLower` agrees with Python
`str.lower()`. -/

/-- Python `s.split(sep)` for a one-character separator: `n` occurrences of
the separator give `n + 1` (possibly empty) parts; the empty string gives a
single empty part. -/
def pySplit (sep : Char) : List Char → List (List Char)
  | [] => [[]]
  | c :: cs =>
      match pySplit sep cs with
      | [] => []
      | p :: ps => if c = sep then [] :: p :: ps else (c :: p) :: ps

/-- Python `str.lower()`; `Char.toLower` lowers exactly the ASCII range, which
coincides with Python on the ASCII strings appearing here. -/
def pyLower (s : List Char) : List Char :=
  s.map Char.toLower

/-- Python `<` on strings: lexicographic comparison of code points. -/
def pyStrLt : List Char → List Char → Bool
  | [], [] => false
  | [], _ :: _ => true
  | _ :: _, [] => false
  | a :: as, b :: bs =>
      if a.toNat < b.toNat then true
      else if b.toNat < a.toNat then false
      else pyStrLt as bs

/-! ## `app/utils/validation_orchestrator.py` — basic helpers -/

/-- Embedding of `extract_domain` (validation_orchestrator.py:218):
`email.split('@')[1].lower()`, with the `IndexError` (fewer than two parts)
caught and turned into `""`; `[1]` is the second part of the split. -/
def extract_domain (email : String) : String :=
  match pySplit '@' email.toList with
  | _ :: d :: _ => (pyLower d).asString
  | _ => ""

/-- Character class of the local part in the syntax regex of
`app/utils/syntax_validator.py:23`:
`[a-zA-Z0-9.!#$%&'*+/=?^_`{|}~-]` (the apostrophe, backtick, braces and pipe
are written via their code points below). -/
def isLocalChar (c : Char) : Bool :=
  c.isAlphanum ||
    c ∈ ['.', '!', '#', '$', '%', '&', Char.ofNat 39, '*', '+', '/', '=',
         '?', '^', '_', Char.ofNat 96, Char.ofNat 123, Char.ofNat 124,
         Char.ofNat 125, '~', '-']

/-- Character class `[a-zA-Z0-9-]` of a domain label in that regex. -/
def isDomainChar (c : Char) : Bool :=
  c.isAlphanum || c = '-'

/-- Core of the regex of syntax_validator.py:
`^[local]+@[a-zA-Z0-9-]+(?:\.[a-zA-Z0-9-]+)*$`.  Neither character class
contains `@`, so a match forces exactly one `@`; the domain part is a sequence
of non-empty labels of domain characters joined by single dots. -/
def matchesEmailCore (email : List Char) : Bool :=
  match pySplit '@' email with
  | [l, d] =>
      (!l.isEmpty) && l.all isLocalChar &&
        (pySplit '.' d).all (fun lab => (!lab.isEmpty) && lab.all isDomainChar)
  | _ => false

/-- Full match semantics of `re.match` with the pattern of
syntax_validator.py: Python `$` also matches just before a single trailing
newline, so a string with one trailing `\n` after a matching core is accepted
as well. -/
def matchesEmailRegex (email : String) : Bool :=
  matchesEmailCore email.toList ||
    (email.toList.getLast? = some '\n' && matchesEmailCore email.toList.dropLast)

/-- Embedding of `validate_syntax` (syntax_validator.py:9).  Despite its
docstring promising `True`/`False`, the source returns `True` on a regex match
and otherwise `raise ValidationError("Invalid email syntax.")`; it never
returns `False`. -/
def validate_syntax (email : String) : Except String Bool :=
  if matchesEmailRegex email then .ok true
  else .error "ValidationError: Invalid email syntax."

/-! ## `validate_email` (validation_orchestrator.py:29) -/

/-- Result dict of `EmailDNSValidator.validate_domain` as consumed by the
orchestrator: keys `has_mx`, `has_a`, `has_ptr` (read with `.get`, defaulting
to absent/false). -/
structure DnsResults where
  has_mx : Bool := false
  has_a : Bool := false
  has_ptr : Bool := false
deriving Repr, DecidableEq

/-- The nested `checks` dict initialised at validation_orchestrator.py:59.
Field ↔ key map: `syntaxIsValid` ↔ `checks["syntax"]["is_valid"]`,
`dns` ↔ `checks["dns"]` (`none` is the initial `{}`),
`isDisposable` ↔ `checks["disposable"]["is_disposable"]`,
`isRole` ↔ `checks["role_account"]["is_role"]`,
`isTrap` ↔ `checks["spam_trap"]["is_trap"]`,
`isCatchAll` ↔ `checks["catch_all"]["is_catch_all"]`,
`typoSuggestions` ↔ `checks["typos"]["suggestions"]`,
`reputationScore` ↔ `checks["reputation"]["score"]`. -/
structure EmailChecks where
  syntaxIsValid : Bool := false
  dns : Option DnsResults := none
  isDisposable : Bool := false
  isRole : Bool := false
  isTrap : Bool := false
  isCatchAll : Bool := false
  typoSuggestions : List String := []
  reputationScore : ℚ := 0
deriving Repr, DecidableEq

/-- The `results` dict of `validate_email`
(validation_orchestrator.py:56): keys `email`, `is_valid`, `checks`, `score`,
`error`. -/
structure EmailResults where
  email : String
  is_valid : Bool := false
  checks : EmailChecks := {}
  score : ℚ := 0
  error : Option String := none
deriving Repr, DecidableEq

/-- The module `validation_orchestrator.py` never defines or imports a name
`logger`, yet every `except` handler in `validate_email` (lines 86, 99, 103,
151) begins with `logger.error(...)`/`logger.warning(...)`; executing any of
those handlers therefore raises `NameError` before `results["error"]` can be
assigned. -/
def nameErrorLogger : String := "NameError: name logger is not defined"

/-- The `except RateLimitExceeded` clause at validation_orchestrator.py:98
names `RateLimitExceeded`, which is neither imported nor defined in the module
(exceptions.py defines `RateLimitError`, not `RateLimitExceeded`); evaluating
the clause while handling any DNS exception raises this NameError. -/
def nameErrorRateLimit : String := "NameError: name RateLimitExceeded is not defined"

/-- Python raises this when `await` is applied to a value that is not
awaitable, which happens at validation_orchestrator.py:110: `verify_smtp` is a
plain synchronous function (smtp_verifier.py:29) returning a dict, and
`await verify_smtp(domain)` awaits that dict.  (The same would happen at the
later `await is_disposable_email(email)` and `await get_domain_reputation(domain)`
lines, and `spam_trap_detector.check` / `catch_all_detector.check` do not even
exist on their classes, but execution never gets that far.) -/
def typeErrorAwait : String := "TypeError: object dict cannot be used in await expression"

/-- The post-DNS block of `validate_email` (validation_orchestrator.py:107-148).
Its first statement `smtp_result = await verify_smtp(domain)` raises
`TypeError` on every execution because `verify_smtp` is synchronous, so no
later statement of the block (disposable, role-account, typo, reputation,
spam-trap, catch-all, scoring) is ever reached. -/
def fanOutStage (_results : EmailResults) : Except String EmailResults :=
  .error typeErrorAwait

/-- The `except Exception` handler at validation_orchestrator.py:150 applied to
the outcome of the post-DNS block: on an exception it executes
`logger.error(...)` first, and `logger` is undefined, so the handler itself
raises `NameError` and the original error is replaced by it. -/
def fanOutHandler (r : Except String EmailResults) : Except String EmailResults :=
  match r with
  | .ok v => .ok v
  | .error _ => .error nameErrorLogger

/-- Embedding of `validate_email` (validation_orchestrator.py:29-154),
parameterised by the outcome `dnsEnv` of
`await dns_validator.validate_domain(domain)` (the DNS/caching collaborator).
A returned `.error` models an exception escaping `validate_email`. -/
def validate_email (email : String) (dnsEnv : Except String DnsResults) :
    Except String EmailResults :=
  let results : EmailResults := { email := email }
  -- lines 73-77: extract_domain never raises (it catches its IndexError), so
  -- the `except ValidationError` around it is dead
  let _domain := extract_domain email
  -- lines 79-88: syntax stage
  match validate_syntax email with
  | .error _ =>
      -- handler at line 85 hits the undefined name `logger`
      .error nameErrorLogger
  | .ok ok =>
    if !ok then
      -- line 82; unreachable, since validate_syntax never returns False
      .ok { results with error := some "Invalid email syntax" }
    else
      let results := { results with checks := { results.checks with syntaxIsValid := true } }
      -- lines 90-105: DNS stage
      match dnsEnv with
      | .error _ =>
          -- evaluating the `except RateLimitExceeded` clause raises NameError
          .error nameErrorRateLimit
      | .ok dns =>
        let results := { results with checks := { results.checks with dns := some dns } }
        if !dns.has_mx && !dns.has_a then
          .ok { results with error := some "Domain has no valid mail servers" }
        else
          -- lines 107-153: fan-out stage under its `except Exception` handler
          fanOutHandler (fanOutStage results)

/-! ## `validate_emails_batch` (validation_orchestrator.py:164) -/

/-- `validate_emails_batch` returns a dict in its empty-input branch
(line 176) but the bare list `results` in the non-empty branch (line 216);
the sum type keeps both shapes apart. -/
inductive BatchOutput where
  | asDict (results : List EmailResults) (total valid invalid errors : Nat)
  | asList (results : List EmailResults)
deriving Repr, DecidableEq

/-- Embedding of `validate_emails_batch` (validation_orchestrator.py:164-216).
For empty input it returns the documented dict with empty results and a zero
summary.  For non-empty input: `results` is bound to `[]` (line 186), the
inner coroutine `process_batch` is defined but never called (the loop that
would invoke per-email validation sits after `return batch_results` inside
`process_batch` and is unreachable), and the function returns the still-empty
`results` list (line 216). -/
def validate_emails_batch (emails : List String) (_batch_size : Nat) : BatchOutput :=
  if emails.isEmpty then
    .asDict [] 0 0 0 0
  else
    .asList []

/-! ## `app/utils/smtp_verifier.py` -/

/-- Observable behaviour of one MX host during the probe performed by
`_check_smtp_server` (smtp_verifier.py:91): either the whole
connect/HELO/(STARTTLS)/MAIL FROM/RCPT TO conversation completes and the RCPT
answer carries `code`/`message` (with `tls` telling whether the server
advertised STARTTLS), or some step raises (`socket.timeout`,
`smtplib.SMTPException`, or any other connection-level error). -/
inductive HostBehavior where
  | responds (code : Nat) (message : String) (tls : Bool)
  | connFail (message : String)

/-- The `SMTPResult` dataclass of smtp_verifier.py:19, with the two shapes of
its `details` dict flattened into optional fields: `details_mx_host` carries
`details["mx_host"]` of a per-host result, `details_tried_servers` carries
`details["tried_servers"]` of the all-hosts-failed result. -/
structure SMTPData where
  valid : Bool
  error : String := ""
  code : Nat := 0
  message : String := ""
  supports_tls : Bool := false
  details_mx_host : Option String := none
  details_tried_servers : Option (List String) := none
deriving Repr, DecidableEq

/-- The per-host result built at smtp_verifier.py:125:
`valid=(code == 250)` and the host recorded in `details`. -/
def responseResult (mx_host : String) (code : Nat) (message : String)
    (tls : Bool) : SMTPData :=
  { valid := code = 250, code := code, message := message,
    supports_tls := tls, details_mx_host := some mx_host }

/-- Embedding of `_check_smtp_server` (smtp_verifier.py:91): a completed
conversation returns a `SMTPData` whose `valid` is true exactly for code 250
(550 and every other code yield a normal return with `valid=false`); a
connection-level failure raises `SMTPVerificationError`. -/
def _check_smtp_server (mx_host : String) (behaviour : HostBehavior) :
    Except String SMTPData :=
  match behaviour with
  | .responds code message tls => .ok (responseResult mx_host code message tls)
  | .connFail m =>
      .error ("SMTPVerificationError: SMTP verification failed for "
        ++ mx_host ++ ": " ++ m)

/-- Stable insertion into a sorted list: `x` goes in front of the first
element `y` with `le x y`, so an element keeps its place relative to earlier
equal elements. -/
def stableInsert {α : Type} (le : α → α → Bool) (x : α) : List α → List α
  | [] => [x]
  | y :: ys => if le x y then x :: y :: ys else y :: stableInsert le x ys

/-- Stable sort by a total boolean `≤`, the ordering contract of Python
`sorted` and `heapq.nlargest`. -/
def pySorted {α : Type} (le : α → α → Bool) : List α → List α
  | [] => []
  | x :: xs => stableInsert le x (pySorted le xs)

/-- Python `<` on `(int, str)` tuples (ints first, then code-point
lexicographic string order), as a boolean `≤` for the stable sort below. -/
def pyTupleLe (a b : Nat × String) : Bool :=
  a.1 < b.1 || (a.1 = b.1 && !pyStrLt b.2.toList a.2.toList)

/-- `sorted(mx_records)` at smtp_verifier.py:65: Python `sorted` is a stable
sort under tuple comparison. -/
def sortMx (mx : List (Nat × String)) : List (Nat × String) :=
  pySorted pyTupleLe mx

/-- The `for priority, mx_host in sorted(mx_records)` loop of
smtp_verifier.py:65-76: each host is probed; a result with `valid=true` is
returned at once; a result with `valid=false` (any non-250 code, 550
included) falls through to the next host exactly like a raised exception
(`except Exception: continue`).  `none` means the loop exhausted all hosts. -/
def smtpLoop (env : String → HostBehavior) :
    List (Nat × String) → Option SMTPData
  | [] => none
  | (_, host) :: rest =>
      match _check_smtp_server host (env host) with
      | .ok r => if r.valid then some r else smtpLoop env rest
      | .error _ => smtpLoop env rest

/-- Embedding of `verify_smtp` (smtp_verifier.py:29-89), parameterised by the
`valid` flag of the inner `validate_dns` call, the `mx_records` list from its
details, and the behaviour `env` of each MX host.  The `email.split('@')[1]`
at line 55 raises `IndexError` when the address has no `@`; that exception is
caught by the outer handler at line 84, which returns a
`Verification failed: ...` record. -/
def verify_smtp (email : String) (dnsValid : Bool)
    (mx_records : List (Nat × String)) (env : String → HostBehavior) : SMTPData :=
  if !dnsValid then
    { valid := false, error := "DNS validation failed" }
  else
    match pySplit '@' email.toList with
    | _ :: domain :: _ =>
        let domain := domain.asString
        if mx_records.isEmpty then
          { valid := false, error := "No MX records found for domain: " ++ domain }
        else
          match smtpLoop env (sortMx mx_records) with
          | some r => r
          | none =>
              { valid := false, error := "All MX servers failed verification",
                details_tried_servers := some (mx_records.map (·.2)) }
    | _ =>
        { valid := false, error := "Verification failed: list index out of range" }

/-! ## `app/utils/domain_reputation_checker.py` -/

/-- The `BLACKLIST_SERVERS` list of domain_reputation_checker.py:35. -/
def BLACKLIST_SERVERS : List String :=
  ["zen.spamhaus.org", "bl.spamcop.net", "dnsbl.sorbs.net",
   "spam.abuse.ch", "cbl.abuseat.org"]

/-- The `WEIGHTS` dict of domain_reputation_checker.py:26, one field per key. -/
structure ReputationWeights where
  domain_age : ℚ
  blacklist_status : ℚ
  ssl_status : ℚ
  web_presence : ℚ
  mail_config : ℚ

def WEIGHTS : ReputationWeights :=
  { domain_age := 25/100, blacklist_status := 30/100, ssl_status := 15/100,
    web_presence := 15/100, mail_config := 15/100 }

/-- External observations consumed by one `check_reputation` call:
`whoisAge` is the outcome of the `whois` lookup in `_check_domain_age`
(`.error` = the lookup or date handling raised; `.ok none` = no
`creation_date`; `.ok (some d)` = age of `d` days), `blacklistResolves` tells
which blacklist hostnames resolve in `_check_blacklists`, `sslOk` whether the
TLS handshake of `_check_ssl` succeeds, `webStatus` the HTTP outcome of
`_check_web_presence`, and `mailCfg` the `(has_mx, has_spf, has_dmarc)`
outcome of `_check_mail_config`. -/
structure RepInputs where
  whoisAge : Except String (Option Int)
  blacklistResolves : String → Bool
  sslOk : Bool
  webStatus : Except String Nat
  mailCfg : Except String (Bool × Bool × Bool)

/-- Embedding of `_check_domain_age` (domain_reputation_checker.py:133): on a
creation date aged `d` days it returns
`max(0, min(100, (max_age - age_days) / max_age * 100))` with
`max_age = 5 * 365`; on an exception it returns the neutral 50; when
`w.creation_date` is absent the `if` falls through and the Python function
returns `None` — kept as `none` here. -/
def checkDomainAge : Except String (Option Int) → Option ℚ
  | .error _ => some 50
  | .ok none => none
  | .ok (some ageDays) =>
      some (max 0 (min 100 ((1825 - (ageDays : ℚ)) / 1825 * 100)))

/-- Embedding of `_check_blacklists` (domain_reputation_checker.py:160): the
score is `len(listed_on) / len(BLACKLIST_SERVERS) * 100`, where `listed_on`
collects the blacklist servers whose lookup succeeded (the completion order of
the worker pool permutes `listed_on` but not its length). -/
def checkBlacklists (resolves : String → Bool) : ℚ :=
  (((BLACKLIST_SERVERS.filter resolves).length : ℚ)
    / (BLACKLIST_SERVERS.length : ℚ)) * 100

/-- Embedding of `_check_ssl` (domain_reputation_checker.py:193): 0 on a good
handshake, 100 on any failure. -/
def checkSsl (ok : Bool) : ℚ :=
  if ok then 0 else 100

/-- Embedding of `_check_web_presence` (domain_reputation_checker.py:216):
0 for HTTP 200, 50 for any other status, 50 on an exception. -/
def checkWebPresence : Except String Nat → ℚ
  | .ok status => if status = 200 then 0 else 50
  | .error _ => 50

/-- Embedding of `_check_mail_config` (domain_reputation_checker.py:236):
missing MX adds 40, missing SPF 30, missing DMARC 30; an exception yields the
neutral 50. -/
def checkMailConfig : Except String (Bool × Bool × Bool) → ℚ
  | .error _ => 50
  | .ok (mx, spf, dmarc) =>
      (if !mx then 40 else 0) + (if !spf then 30 else 0) + (if !dmarc then 30 else 0)

/-- The `DomainReputation` dataclass of domain_reputation_checker.py:43
(`details` omitted: no claim consults it). -/
structure DomainReputation where
  score : ℚ
  risk_level : String
  error : String := ""
deriving Repr, DecidableEq

/-- The `try` body of `check_reputation`
(domain_reputation_checker.py:73-123): the five sub-scores, the weighted
total, and the risk tier against the thresholds
`high_risk_threshold = 70` / `medium_risk_threshold = 40` set in `__init__`.
When `_check_domain_age` returned `None`, the multiplication
`age_score * WEIGHTS["domain_age"]` in the `sum` raises `TypeError`, which is
the one exception this body can produce. -/
def check_reputation_body (i : RepInputs) : Except String DomainReputation :=
  match checkDomainAge i.whoisAge with
  | none => .error "TypeError: unsupported operand types for *: NoneType and float"
  | some age_score =>
      let blacklist_score := checkBlacklists i.blacklistResolves
      let ssl_score := checkSsl i.sslOk
      let web_score := checkWebPresence i.webStatus
      let mail_score := checkMailConfig i.mailCfg
      let total_score :=
        age_score * WEIGHTS.domain_age
          + blacklist_score * WEIGHTS.blacklist_status
          + ssl_score * WEIGHTS.ssl_status
          + web_score * WEIGHTS.web_presence
          + mail_score * WEIGHTS.mail_config
      let risk_level :=
        if total_score ≥ 70 then "high"
        else if total_score ≥ 40 then "medium"
        else "low"
      .ok { score := total_score, risk_level := risk_level }

/-- Embedding of `DomainReputationChecker.check_reputation`
(domain_reputation_checker.py:59-131): the body under its
`except Exception` handler, which converts any exception into the pessimistic
`score=100, risk_level="high"` record carrying the exception text. -/
def check_reputation (i : RepInputs) : DomainReputation :=
  match check_reputation_body i with
  | .ok r => r
  | .error e => { score := 100, risk_level := "high", error := e }

/-! ## `app/utils/disposable_email_detector.py` -/

/-- Python `email.split('@')[-1]` (disposable_email_detector.py:21): the last
component of the split; `str.split` never returns an empty list. -/
def pyDomainOf (email : String) : String :=
  ((pySplit '@' email.toList).getLastD []).asString

/-- Embedding of `is_disposable_email` (disposable_email_detector.py:11),
parameterised by the HTTP outcome per queried domain: `.error` is a raised
`requests.RequestException`, `.ok (status, payload)` a response with that
status code whose JSON `is_disposable` field (defaulted to `False` by
`data.get`) is `payload`.  Status 200 returns the payload; any other status
and any request exception return `False`. -/
def is_disposable_email (email : String)
    (api : String → Except String (Nat × Bool)) : Bool :=
  let domain := pyDomainOf email
  match api domain with
  | .error _ => false
  | .ok (status, payload) => if status = 200 then payload else false

/-! ## Catch-all confidence (`_calculate_confidence`) -/

/-- The count of the most frequent response code in a list of probe
responses (each response is identified by its SMTP code, mirroring the
`{code: ...}` dicts the tests feed in). -/
def dominantCount (rs : List Nat) : Nat :=
  (rs.map (fun c => rs.count c)).foldr max 0

/-- Modelled from the spec: `_calculate_confidence` is imported from
`app.utils.catch_all_detector` by src/tests/test_utils/test_catch_all_detector.py
but absent from that module under src/ (the module only defines the
`CatchAllDetector` class).  Spec §4.6: all-identical responses give
confidence 1.0, mixed responses a value proportional to the dominant
response share, and an empty response set gives 0.0 — i.e. the dominant
response count over the total count. -/
def _calculate_confidence (rs : List Nat) : ℚ :=
  if rs = [] then 0 else (dominantCount rs : ℚ) / (rs.length : ℚ)

/-! ## `difflib` as used by `app/utils/typo_detector.py`

`detect_typo` calls `difflib.get_close_matches(domain, COMMON_EMAIL_DOMAINS,
n=1, cutoff=0.8)`.  The CPython implementation is embedded below.  All
sequences involved are far shorter than 200 characters, so the `autojunk`
popularity heuristic of `SequenceMatcher` never marks any junk and the
junk-extension loops of `find_longest_match` are no-ops. -/

/-- One row of the `find_longest_match` dynamic programme: for the current
character `ai` of sequence `a`, `row[j] = prev[j-1] + 1` when `b[j] = ai`
(a common suffix grows) and `0` otherwise, exactly the `j2len` recurrence of
CPython (absent dict entries are the zeros).  `diag` carries `prev[j-1]`,
starting at 0 for `j = 0`. -/
def dpRow (ai : Char) : List Char → Nat → List Nat → List Nat
  | [], _, _ => []
  | c :: cs, diag, prev =>
      (if c = ai then diag + 1 else 0) :: dpRow ai cs (prev.headD 0) prev.tail

/-- Scan one DP row with `j` ascending, replacing the best block `(bi, bj, bs)`
only on strictly greater length `k > bs`, mirroring
`if k > bestsize: besti, bestj, bestsize = i-k+1, j-k+1, k`; ties therefore
keep the earliest block in `(i, j)` iteration order. -/
def scanRow (i : Nat) : List Nat → Nat → Nat × Nat × Nat → Nat × Nat × Nat
  | [], _, best => best
  | k :: ks, j, best =>
      scanRow i ks (j + 1)
        (if k > best.2.2 then (i + 1 - k, j + 1 - k, k) else best)

/-- Outer loop of `find_longest_match`: `i` ascending over `a`, each row built
from the previous one. -/
def flmGo (b : List Char) : List Char → Nat → List Nat → Nat × Nat × Nat →
    Nat × Nat × Nat
  | [], _, _, best => best
  | ai :: arest, i, prev, best =>
      let row := dpRow ai b 0 prev
      flmGo b arest (i + 1) row (scanRow i row 0 best)

/-- `SequenceMatcher.find_longest_match` over the full ranges, with no junk:
the longest common substring of `a` and `b`, earliest in `a` then in `b`,
returned as `(start in a, start in b, length)`. -/
def find_longest_match (a b : List Char) : Nat × Nat × Nat :=
  flmGo b a 0 [] (0, 0, 0)

/-- Total size of all matching blocks — the `get_matching_blocks` recursion of
difflib reduced to the total that `ratio` consumes: the longest match splits
both sequences and the two sides recurse.  `fuel` dominates the recursion
depth; every use below supplies `a.length + b.length + 1`, which the
recursion (both sides of a non-trivial split are strictly shorter) cannot
exhaust. -/
def matchingTotal (fuel : Nat) (a b : List Char) : Nat :=
  match fuel with
  | 0 => 0
  | fuel + 1 =>
      let t := find_longest_match a b
      if t.2.2 = 0 then 0
      else
        matchingTotal fuel (a.take t.1) (b.take t.2.1) + t.2.2
          + matchingTotal fuel (a.drop (t.1 + t.2.2)) (b.drop (t.2.1 + t.2.2))

/-- `SequenceMatcher.ratio()`: `2*M / (len(a)+len(b))`, and 1.0 when both
sequences are empty (`_calculate_ratio`).  The quotient of the two small
integers is exact here even though CPython computes it in floating point:
all ratios in play have denominators bounded by the sequence lengths, far
too coarse for double rounding to merge distinct values or move one across
another (or across the cutoff 4/5). -/
def seqRatio (a b : List Char) : ℚ :=
  let t := a.length + b.length
  if t = 0 then 1 else mkRat (2 * matchingTotal (t + 1) a b) t

/-- `SequenceMatcher.quick_ratio()`: the multiset-intersection upper bound
`2 * Σ_c min(count_a c, count_b c) / (len(a)+len(b))`. -/
def quickRatio (a b : List Char) : ℚ :=
  let t := a.length + b.length
  let m := (a.dedup.map fun c => min (a.count c) (b.count c)).sum
  if t = 0 then 1 else mkRat (2 * m) t

/-- `SequenceMatcher.real_quick_ratio()`: `2 * min(la, lb) / (la + lb)`. -/
def realQuickRatio (a b : List Char) : ℚ :=
  let t := a.length + b.length
  if t = 0 then 1 else mkRat (2 * min a.length b.length) t

/-- Python `>` on `(score, string)` pairs: tuple comparison — score first,
then code-point-lexicographic string order. -/
def pyPairGt (p q : ℚ × String) : Bool :=
  p.1 > q.1 || (p.1 = q.1 && pyStrLt q.2.toList p.2.toList)

/-- `heapq.nlargest(n, result)` on `(score, string)` pairs: equivalent to
`sorted(result, reverse=True)[:n]` under Python tuple order. -/
def pyNlargest (n : Nat) (xs : List (ℚ × String)) : List (ℚ × String) :=
  (pySorted (fun p q => !pyPairGt q p) xs).take n

/-- `difflib.get_close_matches(word, possibilities, n, cutoff)`: keep the
possibilities whose three ratio stages all reach the cutoff (seq1 is the
candidate, seq2 the word), then the `n` best, best first. -/
def get_close_matches (word : String) (possibilities : List String)
    (n : Nat) (cutoff : ℚ) : List String :=
  let w := word.toList
  let scored := possibilities.filterMap fun x =>
    let xs := x.toList
    if realQuickRatio xs w ≥ cutoff ∧ quickRatio xs w ≥ cutoff ∧
        seqRatio xs w ≥ cutoff then
      some (seqRatio xs w, x)
    else none
  (pyNlargest n scored).map (·.2)

/-! ## `app/utils/typo_detector.py` -/

/-- The `COMMON_EMAIL_DOMAINS` list of typo_detector.py:9. -/
def COMMON_EMAIL_DOMAINS : List String :=
  ["gmail.com", "yahoo.com", "outlook.com", "hotmail.com", "aol.com",
   "icloud.com", "mail.com", "gmx.com", "protonmail.com", "zoho.com"]

/-- A single-quote character, for the suggestion text built by `detect_typo`. -/
def singleQuote : String := String.singleton (Char.ofNat 39)

/-- Embedding of `detect_typo` (typo_detector.py:22): unpacking
`email.split('@')` into two names raises `ValueError` unless the split has
exactly two parts, and that error is caught and turned into `None`; otherwise
the lowercased domain is matched against the common domains with `n=1`,
`cutoff=0.8`, and a suggestion is produced only when the closest match exists
and differs from the domain itself. -/
def detect_typo (email : String) : Option String :=
  match pySplit '@' email.toList with
  | [_, domain] =>
      let domain := (pyLower domain).asString
      match get_close_matches domain COMMON_EMAIL_DOMAINS 1 (mkRat 4 5) with
      | m :: _ =>
          if m ≠ domain then
            some ("Did you mean " ++ singleQuote ++ "@" ++ m ++ singleQuote ++ "?")
          else none
      | [] => none
  | _ => none

/-! ## Claim C1 — batch order preservation -/

/-- C1: the claim states that for every non-empty input list,
`validate_emails_batch` returns a results list of the same length with
`result[i].email == input[i]`.  The code refutes it: for the non-empty input
`["user@example.com"]` the function returns the bare empty list (its inner
`process_batch` coroutine is never invoked), of length 0 ≠ 1, while for the
empty input it returns the documented dict shape. -/
theorem C1_batch_nonempty_returns_empty_list :
    validate_emails_batch ["user@example.com"] 50 = .asList [] ∧
    validate_emails_batch [] 50 = .asDict [] 0 0 0 0 :=
  ⟨rfl, rfl⟩

/-! ## Claim C2 — healthy-path scenario -/

/-- C2: the claim states that `validate_email "user@example.com"` with all
external checks healthy returns `is_valid=true`, a score in the upper half of
0–100 and `risk_level="low"`.  The code refutes it: the syntax stage passes
and the DNS stage reports MX/A/PTR present, but the fan-out stage awaits the
synchronous `verify_smtp` (a `TypeError`) and its `except Exception` handler
references the undefined name `logger`, so the call raises `NameError` and
returns no result dict at all — no score, no risk level. -/
theorem C2_healthy_scenario_raises :
    validate_syntax "user@example.com" = .ok true ∧
    validate_email "user@example.com"
        (.ok { has_mx := true, has_a := true, has_ptr := true })
      = .error nameErrorLogger :=
  ⟨rfl, rfl⟩

/-! ## Claim C3 — invalid syntax fail-fast -/

/-- C3: the claim states that every syntactically invalid email yields
`is_valid=false` with `error="Invalid email syntax"`, downstream checks
skipped and no network call.  In the code, `validate_syntax` raises
`ValidationError` instead of returning `False`, and the orchestrator handler
then trips over the undefined name `logger`: for every email rejected by the
regex, `validate_email` raises `NameError` — uniformly in the DNS
environment, which is indeed never consulted (no network call), but the
promised error record is never produced. -/
theorem C3_invalid_syntax_raises (email : String) (dnsEnv : Except String DnsResults)
    (h : matchesEmailRegex email = false) :
    validate_email email dnsEnv = .error nameErrorLogger := by
  simp [validate_email, validate_syntax, h]

/-- Witness for C3 at the spec scenario input `"not-an-email"`. -/
theorem C3_witness :
    matchesEmailRegex "not-an-email" = false ∧
    validate_email "not-an-email" (.ok {}) = .error nameErrorLogger :=
  ⟨by decide, C3_invalid_syntax_raises "not-an-email" (.ok {}) (by decide)⟩

/-! ## Claim C5 — fan-out failure isolation -/

/-- C5: the claim states that once syntax and DNS pass, all post-DNS checks
run, a failing check only degrading its own contribution.  The code refutes
it: the post-DNS block is one sequential `try` whose first statement
`await verify_smtp(domain)` raises `TypeError` (`verify_smtp` is
synchronous), and the shared `except Exception` handler — which itself
raises `NameError` on the undefined `logger` — abandons every remaining
check, so for every email reaching the fan-out stage `validate_email`
raises instead of returning per-check results. -/
theorem C5_fanout_aborts_pipeline (email : String) (dns : DnsResults)
    (hsyn : validate_syntax email = .ok true) (hmx : dns.has_mx = true) :
    validate_email email (.ok dns) = .error nameErrorLogger := by
  simp [validate_email, hsyn, hmx, fanOutHandler, fanOutStage]

/-- Witness for C5 at `"user@example.com"` with an MX-bearing domain. -/
theorem C5_witness :
    validate_syntax "user@example.com" = .ok true ∧
    validate_email "user@example.com" (.ok { has_mx := true })
      = .error nameErrorLogger :=
  ⟨by rfl, C5_fanout_aborts_pipeline "user@example.com" { has_mx := true } (by rfl) rfl⟩

/-! ## Claim C8 — disposable detector fails open -/

/-- C8: on a raised `requests.RequestException` or any non-200 response
status, `is_disposable_email` returns `False`. -/
theorem C8_disposable_fails_open (email : String)
    (api : String → Except String (Nat × Bool))
    (h : ∀ st payload, api (pyDomainOf email) = .ok (st, payload) → st ≠ 200) :
    is_disposable_email email api = false := by
  unfold is_disposable_email
  cases hapi : api (pyDomainOf email) with
  | error e => simp [hapi]
  | ok v =>
      obtain ⟨st, payload⟩ := v
      simp [hapi, h st payload hapi]

/-- Witness for C8: a network error and a 502 response both yield `false`. -/
theorem C8_witness :
    is_disposable_email "user@mailinator.com" (fun _ => .error "ConnectionError")
        = false ∧
    is_disposable_email "user@mailinator.com" (fun _ => .ok (502, true)) = false := by
  constructor
  · exact C8_disposable_fails_open _ _ (by intro st p hh; cases hh)
  · exact C8_disposable_fails_open _ _ (by intro st p hh; cases hh; decide)

/-! ## Claim C9 — catch-all confidence purity -/

theorem foldrMax_le {l : List Nat} {n : Nat} (h : ∀ x ∈ l, x ≤ n) :
    l.foldr max 0 ≤ n := by
  induction l with
  | nil => exact Nat.zero_le n
  | cons a t ih =>
      exact max_le (h a (List.mem_cons_self a t))
        (ih fun x hx => h x (List.mem_cons_of_mem a hx))

theorem le_foldrMax {l : List Nat} {x : Nat} (hx : x ∈ l) :
    x ≤ l.foldr max 0 := by
  induction l with
  | nil => cases hx
  | cons a t ih =>
      rcases List.mem_cons.mp hx with rfl | hmem
      · exact le_max_left _ _
      · exact le_trans (ih hmem) (le_max_right _ _)

theorem foldrMax_lt {l : List Nat} {n : Nat} (h : ∀ x ∈ l, x < n) (hn : 0 < n) :
    l.foldr max 0 < n := by
  induction l with
  | nil => exact hn
  | cons a t ih =>
      exact max_lt (h a (List.mem_cons_self a t))
        (ih fun x hx => h x (List.mem_cons_of_mem a hx))

theorem dominantCount_eq_length {rs : List Nat} {c : Nat} (hne : rs ≠ [])
    (hall : ∀ x ∈ rs, x = c) : dominantCount rs = rs.length := by
  apply le_antisymm
  · exact foldrMax_le (by
      intro x hx
      rcases List.mem_map.mp hx with ⟨y, _, rfl⟩
      exact List.count_le_length y rs)
  · obtain ⟨a, t, rfl⟩ := List.exists_cons_of_ne_nil hne
    have hcount : (a :: t).count a = (a :: t).length := by
      refine List.count_eq_length.mpr fun b hb => ?_
      rw [hall b hb, hall a (List.mem_cons_self a t)]
    calc (a :: t).length = (a :: t).count a := hcount.symm
      _ ≤ _ := le_foldrMax (List.mem_map.mpr
            ⟨a, List.mem_cons_self a t, rfl⟩)

theorem dominantCount_lt_length {rs : List Nat} {a b : Nat} (ha : a ∈ rs)
    (hb : b ∈ rs) (hab : a ≠ b) : dominantCount rs < rs.length := by
  have hpos : 0 < rs.length := List.length_pos.mpr (List.ne_nil_of_mem ha)
  refine foldrMax_lt ?_ hpos
  intro x hx
  rcases List.mem_map.mp hx with ⟨y, _, rfl⟩
  rcases lt_or_eq_of_le (List.count_le_length y rs) with hlt | heq
  · exact hlt
  · exfalso
    have hall := List.count_eq_length.mp heq
    exact hab ((hall a ha).symm.trans (hall b hb))

/-- C9: the confidence calculation is pure and satisfies the three contract
points — every non-empty all-identical response list gives 1, the empty list
gives 0, and every mixed list gives exactly the dominant response share,
strictly below 1. -/
theorem C9_confidence_contract :
    (∀ (rs : List Nat) (c : Nat), rs ≠ [] → (∀ x ∈ rs, x = c) →
        _calculate_confidence rs = 1) ∧
    _calculate_confidence [] = 0 ∧
    (∀ (rs : List Nat) (a b : Nat), a ∈ rs → b ∈ rs → a ≠ b →
        _calculate_confidence rs = (dominantCount rs : ℚ) / (rs.length : ℚ) ∧
        _calculate_confidence rs < 1) := by
  refine ⟨?_, rfl, ?_⟩
  · intro rs c hne hall
    have hlen : (rs.length : ℚ) ≠ 0 := by
      exact_mod_cast (List.length_pos.mpr hne).ne'
    unfold _calculate_confidence
    rw [if_neg hne, dominantCount_eq_length hne hall]
    exact div_self hlen
  · intro rs a b ha hb hab
    have hne : rs ≠ [] := List.ne_nil_of_mem ha
    have hpos : (0 : ℚ) < (rs.length : ℚ) := by
      exact_mod_cast List.length_pos.mpr hne
    unfold _calculate_confidence
    rw [if_neg hne]
    refine ⟨rfl, ?_⟩
    rw [div_lt_one hpos]
    exact_mod_cast dominantCount_lt_length ha hb hab

/-- Witness for C9 at the concrete response lists of the repository test
suite: three identical 250s, the empty list, and the mixed 250/550/250 list. -/
theorem C9_witness :
    _calculate_confidence [250, 250, 250] = 1 ∧
    _calculate_confidence [] = 0 ∧
    _calculate_confidence [250, 550, 250] < 1 :=
  ⟨C9_confidence_contract.1 [250, 250, 250] 250 (by decide) (by decide),
   C9_confidence_contract.2.1,
   (C9_confidence_contract.2.2 [250, 550, 250] 250 550 (by decide) (by decide)
      (by decide)).2⟩

/-! ## Claims C6 and C7 — domain reputation -/

/-- C6: any exception escaping the body of `check_reputation` is converted
into the pessimistic ceiling `score=100, risk_level="high"` carrying the
exception text, instead of propagating to the caller. -/
theorem C6_reputation_exception_ceiling (i : RepInputs) (e : String)
    (h : check_reputation_body i = .error e) :
    check_reputation i = { score := 100, risk_level := "high", error := e } := by
  unfold check_reputation
  rw [h]

/-- Concrete reputation input whose whois lookup finds no creation date, the
one situation in which the body of `check_reputation` raises (the `None`
returned by `_check_domain_age` poisons the weighted sum with a
`TypeError`). -/
def repInputsNoCreationDate : RepInputs :=
  { whoisAge := .ok none, blacklistResolves := fun _ => false, sslOk := true,
    webStatus := .ok 200, mailCfg := .ok (true, true, true) }

/-- Witness for C6 at that concrete input. -/
theorem C6_witness :
    check_reputation_body repInputsNoCreationDate
        = .error "TypeError: unsupported operand types for *: NoneType and float" ∧
    check_reputation repInputsNoCreationDate
        = { score := 100, risk_level := "high",
            error := "TypeError: unsupported operand types for *: NoneType and float" } :=
  ⟨rfl, C6_reputation_exception_ceiling repInputsNoCreationDate _ rfl⟩

theorem checkDomainAge_range {x : Except String (Option Int)} {q : ℚ}
    (h : checkDomainAge x = some q) : 0 ≤ q ∧ q ≤ 100 := by
  match x with
  | .error _ =>
      simp only [checkDomainAge, Option.some.injEq] at h
      rw [← h]; norm_num
  | .ok none => simp [checkDomainAge] at h
  | .ok (some d) =>
      simp only [checkDomainAge, Option.some.injEq] at h
      rw [← h]
      constructor
      · exact le_max_left 0 _
      · exact max_le (by norm_num) (min_le_left _ _)

theorem checkBlacklists_range (resolves : String → Bool) :
    0 ≤ checkBlacklists resolves ∧ checkBlacklists resolves ≤ 100 := by
  unfold checkBlacklists
  have hle : ((BLACKLIST_SERVERS.filter resolves).length : ℚ) ≤ 5 := by
    have h := List.length_filter_le resolves BLACKLIST_SERVERS
    have h5 : BLACKLIST_SERVERS.length = 5 := rfl
    rw [h5] at h
    exact_mod_cast h
  have hlen : ((BLACKLIST_SERVERS.length : ℚ)) = 5 := by norm_num [BLACKLIST_SERVERS]
  rw [hlen]
  constructor
  · positivity
  · rw [div_mul_eq_mul_div, div_le_iff₀ (by norm_num : (0:ℚ) < 5)]
    linarith

theorem checkSsl_range (ok : Bool) : 0 ≤ checkSsl ok ∧ checkSsl ok ≤ 100 := by
  unfold checkSsl
  split <;> norm_num

theorem checkWebPresence_range (w : Except String Nat) :
    0 ≤ checkWebPresence w ∧ checkWebPresence w ≤ 100 := by
  cases w with
  | error e => norm_num [checkWebPresence]
  | ok status =>
      simp only [checkWebPresence]
      split <;> norm_num

theorem checkMailConfig_range (m : Except String (Bool × Bool × Bool)) :
    0 ≤ checkMailConfig m ∧ checkMailConfig m ≤ 100 := by
  unfold checkMailConfig
  match m with
  | .error _ => norm_num
  | .ok (mx, spf, dmarc) =>
      rcases mx <;> rcases spf <;> rcases dmarc <;> norm_num

/-- C7: when the reputation body runs to completion (no top-level exception,
i.e. the domain-age sub-check produced a number), the returned score is the
weighted sum `0.25*age + 0.30*blacklist + 0.15*ssl + 0.15*web + 0.15*mail` of
the five sub-scores, lies in `[0, 100]`, and the risk tier is
`"high"` iff score ≥ 70, `"medium"` iff 40 ≤ score < 70, `"low"` otherwise. -/
theorem C7_reputation_weighted_sum (i : RepInputs) (a : ℚ)
    (hage : checkDomainAge i.whoisAge = some a) :
    (check_reputation i).score
        = a * (25/100) + checkBlacklists i.blacklistResolves * (30/100)
          + checkSsl i.sslOk * (15/100) + checkWebPresence i.webStatus * (15/100)
          + checkMailConfig i.mailCfg * (15/100)
      ∧ 0 ≤ (check_reputation i).score ∧ (check_reputation i).score ≤ 100
      ∧ ((check_reputation i).risk_level = "high" ↔ 70 ≤ (check_reputation i).score)
      ∧ ((check_reputation i).risk_level = "medium" ↔
            40 ≤ (check_reputation i).score ∧ (check_reputation i).score < 70)
      ∧ ((check_reputation i).risk_level = "low" ↔ (check_reputation i).score < 40) := by
  have hbody : check_reputation i =
      { score := a * (25/100) + checkBlacklists i.blacklistResolves * (30/100)
          + checkSsl i.sslOk * (15/100) + checkWebPresence i.webStatus * (15/100)
          + checkMailConfig i.mailCfg * (15/100),
        risk_level :=
          if 70 ≤ a * (25/100) + checkBlacklists i.blacklistResolves * (30/100)
              + checkSsl i.sslOk * (15/100) + checkWebPresence i.webStatus * (15/100)
              + checkMailConfig i.mailCfg * (15/100) then "high"
          else if 40 ≤ a * (25/100) + checkBlacklists i.blacklistResolves * (30/100)
              + checkSsl i.sslOk * (15/100) + checkWebPresence i.webStatus * (15/100)
              + checkMailConfig i.mailCfg * (15/100) then "medium"
          else "low" } := by
    unfold check_reputation check_reputation_body
    rw [hage]
    simp only [ge_iff_le, WEIGHTS]
  obtain ⟨ha0, ha1⟩ := checkDomainAge_range hage
  obtain ⟨hb0, hb1⟩ := checkBlacklists_range i.blacklistResolves
  obtain ⟨hs0, hs1⟩ := checkSsl_range i.sslOk
  obtain ⟨hw0, hw1⟩ := checkWebPresence_range i.webStatus
  obtain ⟨hm0, hm1⟩ := checkMailConfig_range i.mailCfg
  rw [hbody]
  refine ⟨rfl, by dsimp only; linarith, by dsimp only; linarith, ?_, ?_, ?_⟩ <;>
    · dsimp only
      split_ifs with h1 h2 <;> simp_all <;> linarith

/-- Concrete reputation input with every sub-check at its best outcome except
a failed whois lookup (neutral 50): score `50 * 0.25 = 12.5`, risk low. -/
def repInputsBenign : RepInputs :=
  { whoisAge := .error "whois lookup failed", blacklistResolves := fun _ => false,
    sslOk := true, webStatus := .ok 200, mailCfg := .ok (true, true, true) }

/-- Witness for C7 at that concrete input. -/
theorem C7_witness :
    (check_reputation repInputsBenign).score = 25/2 ∧
    (check_reputation repInputsBenign).risk_level = "low" := by
  have h := C7_reputation_weighted_sum repInputsBenign 50 rfl
  have hscore : (check_reputation repInputsBenign).score = 25/2 := by
    rw [h.1]
    have hfilter : checkBlacklists repInputsBenign.blacklistResolves = 0 := by
      unfold checkBlacklists repInputsBenign BLACKLIST_SERVERS
      norm_num [List.filter]
    rw [hfilter]
    norm_num [repInputsBenign, checkSsl, checkWebPresence, checkMailConfig]
  refine ⟨hscore, ?_⟩
  rw [(h.2.2.2.2.2 : _ ↔ _), hscore]
  norm_num

/-! ## Claim C4 — SMTP MX iteration -/

/-- A host on which the probe conversation completes with the one code the
loop accepts: `_check_smtp_server` marks its result `valid` exactly for 250,
and `verify_smtp` returns only `valid` results from inside the loop. -/
def accepts (env : String → HostBehavior) (host : String) : Bool :=
  match env host with
  | .responds c _ _ => c = 250
  | .connFail _ => false

theorem smtpLoop_of_find_none (env : String → HostBehavior)
    (l : List (Nat × String))
    (h : l.find? (fun ph => accepts env ph.2) = none) :
    smtpLoop env l = none := by
  induction l with
  | nil => rfl
  | cons hd tl ih =>
      obtain ⟨p, host⟩ := hd
      rw [List.find?_cons] at h
      split at h
      · exact absurd h (by simp)
      · rename_i hacc
        simp only at hacc
        unfold smtpLoop _check_smtp_server
        unfold accepts at hacc
        cases henv : env host with
        | responds c m t =>
            rw [henv] at hacc
            simp only [responseResult]
            rw [if_neg (by simpa using hacc)]
            exact ih h
        | connFail m => exact ih h

theorem smtpLoop_of_find_some (env : String → HostBehavior)
    (l : List (Nat × String)) (ph : Nat × String)
    (h : l.find? (fun q => accepts env q.2) = some ph) :
    ∃ m t, env ph.2 = .responds 250 m t ∧
      smtpLoop env l = some (responseResult ph.2 250 m t) := by
  induction l with
  | nil => exact absurd h (by simp)
  | cons hd tl ih =>
      obtain ⟨p, host⟩ := hd
      rw [List.find?_cons] at h
      split at h
      · rename_i hacc
        simp only at hacc
        obtain rfl : (p, host) = ph := by simpa using h
        unfold accepts at hacc
        cases henv : env host with
        | responds c m t =>
            rw [henv] at hacc
            obtain rfl : c = 250 := by simpa using hacc
            refine ⟨m, t, rfl, ?_⟩
            unfold smtpLoop _check_smtp_server
            rw [henv]
            simp [responseResult]
        | connFail m =>
            rw [henv] at hacc
            simp [accepts] at hacc
      · rename_i hacc
        simp only at hacc
        obtain ⟨m, t, henv, hloop⟩ := ih h
        refine ⟨m, t, henv, ?_⟩
        unfold smtpLoop _check_smtp_server
        unfold accepts at hacc
        cases henv2 : env host with
        | responds c m2 t2 =>
            rw [henv2] at hacc
            simp only [responseResult]
            rw [if_neg (by simpa using hacc)]
            exact hloop
        | connFail m2 => exact hloop

/-- Host environment in which `a.example` answers 550 to RCPT TO and
`b.example` answers 250. -/
def envC4 : String → HostBehavior := fun h =>
  if h = "b.example" then .responds 250 "OK" false
  else .responds 550 "User unknown" false

/-- C4 counterexample: the claim states a 550 response classifies the mailbox
as nonexistent (`valid=false`) without trying the next MX host.  With MX list
`[(10, a.example), (20, b.example)]` where the first host in ascending
priority order answers 550, `verify_smtp` nevertheless probes `b.example` and
returns its 250 result with `valid=true` — the 550 neither stopped the
iteration nor produced the claimed classification. -/
theorem C4_counterexample_550_tries_next_host :
    (verify_smtp "user@example.com" true
        [(10, "a.example"), (20, "b.example")] envC4).valid = true ∧
    (verify_smtp "user@example.com" true
        [(10, "a.example"), (20, "b.example")] envC4).details_mx_host
      = some "b.example" :=
  ⟨rfl, rfl⟩

/-- C4 amended: `verify_smtp` iterates the MX hosts in ascending Python
`(priority, host)` order; the first host whose conversation completes with
code 250 is returned with `valid=true`; every other outcome — 550 and all
other codes exactly like connection failures — just moves the loop to the
next host; and when no host yields 250 the result is `valid=false` with
error `"All MX servers failed verification"` listing the tried servers. -/
theorem C4_amended_mx_iteration (email : String) (a d : List Char)
    (rest : List (List Char)) (mx : List (Nat × String))
    (env : String → HostBehavior)
    (hsplit : pySplit '@' email.toList = a :: d :: rest) (hmx : mx ≠ []) :
    (∀ ph : Nat × String,
        (sortMx mx).find? (fun q => accepts env q.2) = some ph →
          (verify_smtp email true mx env).valid = true ∧
          (verify_smtp email true mx env).code = 250 ∧
          (verify_smtp email true mx env).details_mx_host = some ph.2) ∧
    ((sortMx mx).find? (fun q => accepts env q.2) = none →
        verify_smtp email true mx env =
          { valid := false, error := "All MX servers failed verification",
            details_tried_servers := some (mx.map (·.2)) }) := by
  have hne : mx.isEmpty = false := by
    simpa using hmx
  constructor
  · intro ph hfind
    obtain ⟨m, t, _, hloop⟩ := smtpLoop_of_find_some env (sortMx mx) ph hfind
    unfold verify_smtp
    rw [hsplit]
    simp only [Bool.not_true, Bool.false_eq_true, if_false, hne, hloop, responseResult]
    exact ⟨by simp, by simp, by simp⟩
  · intro hfind
    have hloop := smtpLoop_of_find_none env (sortMx mx) hfind
    unfold verify_smtp
    rw [hsplit]
    simp only [Bool.not_true, Bool.false_eq_true, if_false, hne, hloop]

/-- Witness for the amended C4 at the counterexample input: the first
accepting host in sorted order is `b.example`. -/
theorem C4_amended_witness :
    (verify_smtp "user@example.com" true
        [(10, "a.example"), (20, "b.example")] envC4).valid = true ∧
    (verify_smtp "user@example.com" true
        [(10, "a.example"), (20, "b.example")] envC4).code = 250 ∧
    (verify_smtp "user@example.com" true
        [(10, "a.example"), (20, "b.example")] envC4).details_mx_host
      = some "b.example" :=
  (C4_amended_mx_iteration "user@example.com" "user".toList "example.com".toList
      [] [(10, "a.example"), (20, "b.example")] envC4 (by decide) (by decide)).1
    (20, "b.example") (by decide)

/-! ## Claim C10 — exact common domains produce no typo suggestion -/

/-- C10: for every email whose `@`-split yields exactly a local part and a
domain whose lowercasing is one of the ten `COMMON_EMAIL_DOMAINS`,
`detect_typo` returns `none`: the exact domain is its own closest match
(similarity 1, strictly above every other candidate and the 0.8 cutoff), and
the `close_matches[0] != domain` guard rejects it. -/
theorem C10_common_domain_no_suggestion (email : String) (l d : List Char)
    (hsplit : pySplit '@' email.toList = [l, d])
    (hmem : (pyLower d).asString ∈ COMMON_EMAIL_DOMAINS) :
    detect_typo email = none := by
  unfold detect_typo
  rw [hsplit]
  dsimp only
  simp only [COMMON_EMAIL_DOMAINS, List.mem_cons, List.not_mem_nil, or_false] at hmem
  rcases hmem with h | h | h | h | h | h | h | h | h | h <;> rw [h] <;> decide

/-- Witness for C10 at `"user@gmail.com"`. -/
theorem C10_witness : detect_typo "user@gmail.com" = none :=
  C10_common_domain_no_suggestion "user@gmail.com" "user".toList
    "gmail.com".toList (by decide) (by decide)

end EmailValidator
